import Mathlib

/-!
Verification development for the CozoDB layer of
`that-in-rust/dobby-subagent-code-summarizer`.

Shallow embedding of `src/cozodb/{error,connection,connection_pool,query}.rs`.
Conventions used throughout:

* Rust `usize`/`u64` counters of the pool bookkeeping are modelled on `Int`
  so that the non-negativity assertions of the specification are statable
  (a Rust debug build panics exactly where the `Int` model goes negative).
* `tokio::time::Instant` / `Duration` are modelled as `Nat` (milliseconds);
  `Instant::elapsed` at wall-clock time `now` is the truncated subtraction
  `now - created`.
* `Vec<CozoConnection>` is modelled as `List Nat` of connection identifiers,
  with the LIST HEAD corresponding to the VECTOR END, so `Vec::push` is
  `cons`, `Vec::pop` takes the head, and `Vec::last` is the head.
* The result of `connection.is_healthy().await.unwrap_or(false)` is passed
  to each pool operation as an explicit boolean argument `check_ok`: in the
  source it is `true` unless the health check's wall-clock timeout fires
  (`CozoConnection::health_check` hard-codes the probe result to healthy and
  only returns an error when `start_time.elapsed() > connection_timeout`),
  and that timing outcome is external nondeterminism, not derivable from the
  code.
-/

namespace Cozo

/-- `CozoError` from `src/cozodb/error.rs` (the `usize` fields of
`ResourceLimitExhausted` are modelled on `Int`, see module conventions). -/
inductive CozoError where
  | ConnectionFailed (message : String)
  | QueryFailed (message : String) (query : String)
  | TransactionFailed (message : String)
  | ResourceLimitExhausted (resource : String) (used : Int) (limit : Int)
  | DatabaseNotFound (path : String)
  | InvalidConfiguration (message : String)
  | SerializationFailed (message : String)
  | Internal (message : String)
deriving DecidableEq, Repr

/-- `CozoError::resource_limit_exhausted` constructor helper
(`src/cozodb/error.rs`, lines 60-70). -/
def CozoError.resource_limit_exhausted (resource : String) (used limit : Int) :
    CozoError :=
  CozoError.ResourceLimitExhausted resource used limit

/-- `CozoError::query_failed` constructor helper (`src/cozodb/error.rs`). -/
def CozoError.query_failed (message query : String) : CozoError :=
  CozoError.QueryFailed message query

/-- `CozoError::connection_failed` constructor helper (`src/cozodb/error.rs`). -/
def CozoError.connection_failed (message : String) : CozoError :=
  CozoError.ConnectionFailed message

/-! ### Per-connection health state, `src/cozodb/connection.rs` -/

/-- `HealthStatus` of a single connection (`src/cozodb/connection.rs`,
lines 56-62); `last_check` is a timestamp irrelevant to the claims and is
omitted. -/
structure HealthStatus where
  is_healthy : Bool
  error_count : Nat
  last_error : Option String
deriving DecidableEq, Repr

/-- `CozoConnection::health_check` (`src/cozodb/connection.rs`, lines
114-142).  The simulated probe result is the literal `true` placeholder of
the source.  `elapsed` is the wall-clock duration `start_time.elapsed()`
observed at the final timeout test and `timeout` is
`config.connection_timeout`.  Note the source mutates the health status
*before* testing the timeout, so the returned status is the success-branch
status even when the function returns the timeout error. -/
def health_check (h : HealthStatus) (elapsed timeout : Nat) :
    Except CozoError Unit × HealthStatus :=
  let probe_result := true
  let h' :=
    if probe_result then
      { h with is_healthy := true, error_count := 0, last_error := none }
    else
      { h with is_healthy := false, error_count := h.error_count + 1,
               last_error := some "Health check failed" }
  if elapsed > timeout then
    (Except.error (CozoError.connection_failed "Health check timeout"), h')
  else
    (Except.ok (), h')

/-! ### Connection pool, `src/cozodb/connection_pool.rs` -/

/-- State of a `CozoConnectionPool` together with its `PoolInfo` counters
(`src/cozodb/connection_pool.rs`, lines 56-74; `PoolInfo` from
`src/cozodb/record.rs`, lines 129-151).  `next_id` is the model's source of
fresh connection identifiers (the source uses fresh UUIDs). -/
structure PoolState where
  max_connections : Nat
  available_connections : List Nat
  all_connections : List Nat
  active_connections : Int
  idle_connections : Int
  total_acquired : Nat
  total_released : Nat
  health_status : Bool
  next_id : Nat
deriving DecidableEq, Repr

/-- Identifiers of `n` freshly created connections, starting at `start`. -/
def freshIds (start n : Nat) : List Nat :=
  (List.range n).map (fun i => start + i)

/-- Push each element of `ids`, in order, onto the vector `l`
(`Vec::push` is `cons` in our head-is-vector-end representation). -/
def pushAll (l : List Nat) (ids : List Nat) : List Nat :=
  ids.foldl (fun acc i => i :: acc) l

/-- `CozoConnectionPool::initialize_pool` (`src/cozodb/connection_pool.rs`,
lines 104-123): creates `max_connections` fresh connections, pushes each
onto `all_connections` and `available_connections`, then *assigns*
`pool_info.idle_connections = max_connections`.  It touches no other
counter (in particular not `active_connections`). -/
def initialize_pool (s : PoolState) : PoolState :=
  let ids := freshIds s.next_id s.max_connections
  { s with
      all_connections := pushAll s.all_connections ids,
      available_connections := pushAll s.available_connections ids,
      idle_connections := (s.max_connections : Int),
      next_id := s.next_id + s.max_connections }

/-- `CozoConnectionPool::new` (`src/cozodb/connection_pool.rs`, lines
78-101): empty vectors, `PoolInfo::new` counters (`active = 0`,
`idle = max`), healthy flag `true`, then `initialize_pool`. -/
def newPool (max : Nat) : PoolState :=
  initialize_pool
    { max_connections := max,
      available_connections := [],
      all_connections := [],
      active_connections := 0,
      idle_connections := (max : Int),
      total_acquired := 0,
      total_released := 0,
      health_status := true,
      next_id := 0 }

/-- Outcome of one `acquire_connection` call.  `stuck` is the
unhealthy-pop branch: there `acquire_connection` calls
`replace_unhealthy_connection` *while still holding the write guard on
`available_connections`* (lines 131-148), and the callee immediately takes
`available_connections.write()` again (line 220) on the same thread — a
non-reentrant `std::sync::RwLock` acquisition that never completes
normally. -/
inductive AcquireOutcome where
  | ok (c : Nat)
  | err (e : CozoError)
  | stuck
deriving DecidableEq, Repr

/-- Result of `acquire_connection`: the outcome, the pool state after the
call, and whether a health check was performed on the returned connection
during the call. -/
structure AcquireResult where
  outcome : AcquireOutcome
  state : PoolState
  checked : Bool
deriving DecidableEq, Repr

/-- `CozoConnectionPool::acquire_connection`
(`src/cozodb/connection_pool.rs`, lines 126-182).

* First attempt: `available.pop()`; if a connection pops and its health
  check passes (`check_ok`), the counters are updated and it is returned.
  If the check fails the call deadlocks inside
  `replace_unhealthy_connection` (see `AcquireOutcome.stuck`).
* Otherwise the call sleeps 10ms and re-reads the available vector;
  `avail_at_retry` is what that second read observes (it can differ from
  the first read only through a concurrent `release_connection` /
  `replace_unhealthy_connection` push during the sleep; in a strictly
  sequential execution it equals `s.available_connections`, i.e. `[]`).
  If non-empty, the *last* element is cloned — without removing it from
  the vector and without any health check — counters are updated and it
  is returned.
* If still empty, returns `ResourceLimitExhausted` built from the current
  `active_connections` counter and `config.max_connections`. -/
def acquire_connection (s : PoolState) (check_ok : Bool)
    (avail_at_retry : List Nat) : AcquireResult :=
  match s.available_connections with
  | c :: rest =>
      if check_ok then
        { outcome := AcquireOutcome.ok c,
          state := { s with
            available_connections := rest,
            active_connections := s.active_connections + 1,
            idle_connections := s.idle_connections - 1,
            total_acquired := s.total_acquired + 1 },
          checked := true }
      else
        { outcome := AcquireOutcome.stuck, state := s, checked := true }
  | [] =>
      match avail_at_retry with
      | c :: _ =>
          { outcome := AcquireOutcome.ok c,
            state := { s with
              active_connections := s.active_connections + 1,
              idle_connections := s.idle_connections - 1,
              total_acquired := s.total_acquired + 1 },
            checked := false }
      | [] =>
          { outcome := AcquireOutcome.err
              (CozoError.resource_limit_exhausted "connections"
                s.active_connections (s.max_connections : Int)),
            state := s,
            checked := false }

/-- Replace the first occurrence of `oldId` in the vector by `newId`
(the `position`-then-assign of lines 213-218). -/
def replaceFirst (l : List Nat) (oldId newId : Nat) : List Nat :=
  match l with
  | [] => []
  | x :: xs => if x = oldId then newId :: xs else x :: replaceFirst xs oldId newId

/-- `CozoConnectionPool::replace_unhealthy_connection`
(`src/cozodb/connection_pool.rs`, lines 205-223): creates a fresh
connection, swaps it for the old one inside `all_connections` (by id), and
pushes it onto `available_connections`.  No `pool_info` counter is
touched. -/
def replace_unhealthy_connection (s : PoolState) (oldId : Nat) : PoolState :=
  { s with
      all_connections := replaceFirst s.all_connections oldId s.next_id,
      available_connections := s.next_id :: s.available_connections,
      next_id := s.next_id + 1 }

/-- `CozoConnectionPool::release_connection`
(`src/cozodb/connection_pool.rs`, lines 185-202): if the connection's
health check passes (`check_ok`) it is pushed back and the counters are
updated; otherwise `replace_unhealthy_connection` runs and *no counter is
touched*. -/
def release_connection (s : PoolState) (check_ok : Bool) (c : Nat) : PoolState :=
  if check_ok then
    { s with
        available_connections := c :: s.available_connections,
        active_connections := s.active_connections - 1,
        idle_connections := s.idle_connections + 1,
        total_released := s.total_released + 1 }
  else
    replace_unhealthy_connection s c

/-- `CozoConnectionPool::simulate_database_failure`
(`src/cozodb/connection_pool.rs`, lines 275-284): writes `false` to the
pool-level health flag; the connection vectors are only read. -/
def simulate_database_failure (s : PoolState) : PoolState :=
  { s with health_status := false }

/-- `CozoConnectionPool::simulate_database_recovery`
(`src/cozodb/connection_pool.rs`, lines 287-296): writes `true` to the
health flag, clears both connection vectors, and re-runs
`initialize_pool`. -/
def simulate_database_recovery (s : PoolState) : PoolState :=
  initialize_pool
    { s with
        health_status := true,
        available_connections := [],
        all_connections := [] }

/-- One iteration of `CozoConnectionPool::health_monitor_loop`
(`src/cozodb/connection_pool.rs`, lines 246-272): reads the two vector
lengths, computes `available / total` (`0.0` when `total = 0`), and writes
`ratio ≥ 0.5` to the pool-level health flag.  The `f64` arithmetic is
modelled exactly on `ℚ` (both counts are vector lengths, far below the
2^53 threshold where `usize as f64` or the quotient could round across
0.5). -/
def health_monitor_cycle (s : PoolState) : PoolState :=
  let available_count := s.available_connections.length
  let total_count := s.all_connections.length
  let healthy_fraction : ℚ :=
    if total_count > 0 then (available_count : ℚ) / (total_count : ℚ) else 0
  { s with health_status := decide (healthy_fraction ≥ 1/2) }

/-! ### Sequential execution of the pool operations -/

/-- Pool states reachable by any sequence of completed sequential calls of
the pool operations named by the specification: creation, acquire (with an
arbitrary health-check outcome; the call must complete, i.e. not hit the
deadlocking unhealthy-pop branch), release (with an arbitrary health-check
outcome), `replace_unhealthy_connection`, `simulate_database_failure` and
`simulate_database_recovery`.  In a sequential execution the retry read of
`acquire_connection` observes the same still-empty vector, hence the `[]`
argument. -/
inductive ReachFull : PoolState → Prop where
  | init (max : Nat) : ReachFull (newPool max)
  | acquire {s : PoolState} (check_ok : Bool) :
      ReachFull s →
      (acquire_connection s check_ok []).outcome ≠ AcquireOutcome.stuck →
      ReachFull ((acquire_connection s check_ok []).state)
  | release {s : PoolState} (check_ok : Bool) (c : Nat) :
      ReachFull s → ReachFull (release_connection s check_ok c)
  | replace {s : PoolState} (c : Nat) :
      ReachFull s → ReachFull (replace_unhealthy_connection s c)
  | fail {s : PoolState} :
      ReachFull s → ReachFull (simulate_database_failure s)
  | recover {s : PoolState} :
      ReachFull s → ReachFull (simulate_database_recovery s)

/-- A pool state together with the multiset (as a list) of connections the
clients currently hold: the ghost bookkeeping of a disciplined client. -/
structure GPool where
  pool : PoolState
  held : List Nat

/-- Disciplined sequential reachability: every health check succeeds
(`check_ok = true`, which is what `CozoConnection::health_check` produces
whenever its wall-clock timeout does not fire), a client releases only a
connection it holds, and `simulate_database_recovery` runs only while no
connection is held. -/
inductive Reach : GPool → Prop where
  | init (max : Nat) : Reach ⟨newPool max, []⟩
  | acquireOk {g : GPool} {c : Nat} :
      Reach g →
      (acquire_connection g.pool true []).outcome = AcquireOutcome.ok c →
      Reach ⟨(acquire_connection g.pool true []).state, c :: g.held⟩
  | acquireErr {g : GPool} {e : CozoError} :
      Reach g →
      (acquire_connection g.pool true []).outcome = AcquireOutcome.err e →
      Reach ⟨(acquire_connection g.pool true []).state, g.held⟩
  | releaseOk {g : GPool} {c : Nat} :
      Reach g → c ∈ g.held →
      Reach ⟨release_connection g.pool true c, g.held.erase c⟩
  | fail {g : GPool} :
      Reach g → Reach ⟨simulate_database_failure g.pool, g.held⟩
  | recover {g : GPool} :
      Reach g → g.held = [] →
      Reach ⟨simulate_database_recovery g.pool, g.held⟩

/-- The state after one sequential `acquire_connection` call whose health
check passes. -/
def acquire_step (s : PoolState) : PoolState :=
  (acquire_connection s true []).state

/-- The state after `n` sequential `acquire_connection` calls, every health
check passing. -/
def acquireN (s : PoolState) : Nat → PoolState
  | 0 => s
  | n + 1 => acquireN (acquire_step s) n

/-- The state after releasing the connections `cs` in order, every health
check passing. -/
def releaseN (s : PoolState) : List Nat → PoolState
  | [] => s
  | c :: cs => releaseN (release_connection s true c) cs

/-! ### Query streaming cursor, `src/cozodb/query.rs` -/

/-- `CodeRecord` as far as the cursor claims need it: an identifier and
its content (`src/cozodb/record.rs`). -/
structure CodeRecord where
  id : String
  content : String
deriving DecidableEq, Repr

/-- `QueryStream` (`src/cozodb/query.rs`, lines 182-194): the materialized
records, the cursor position, the creation instant and the timeout, both
in model milliseconds. -/
structure QueryStream where
  records : List CodeRecord
  position : Nat
  created_at : Nat
  timeout : Nat
deriving DecidableEq, Repr

/-- `QueryStream::new` (`src/cozodb/query.rs`, lines 223-230); `now` is the
creation instant. -/
def QueryStream.new (records : List CodeRecord) (timeout : Nat) (now : Nat) :
    QueryStream :=
  { records := records, position := 0, created_at := now, timeout := timeout }

/-- `QueryStream::is_valid` (`src/cozodb/query.rs`, lines 233-235):
`created_at.elapsed() < timeout`, observed at wall-clock time `now`. -/
def QueryStream.is_valid (s : QueryStream) (now : Nat) : Bool :=
  now - s.created_at < s.timeout

/-- `QueryStream::remaining` (`src/cozodb/query.rs`, lines 238-240):
`records.len().saturating_sub(position)` (truncated `Nat` subtraction). -/
def QueryStream.remaining (s : QueryStream) : Nat :=
  s.records.length - s.position

/-- `<QueryStream as Stream>::poll_next` (`src/cozodb/query.rs`, lines
246-263), at wall-clock time `now`.  `some (Except.error e)` is
`Poll::Ready(Some(Err(e)))`, `some (Except.ok r)` is
`Poll::Ready(Some(Ok(r)))` and `none` is `Poll::Ready(None)`
(end-of-stream).  The function never returns `Poll::Pending`. -/
def QueryStream.poll_next (s : QueryStream) (now : Nat) :
    Option (Except CozoError CodeRecord) × QueryStream :=
  if ¬ s.is_valid now then
    (some (Except.error (CozoError.query_failed "Stream timeout" "QueryStream timeout")), s)
  else if h : s.position < s.records.length then
    (some (Except.ok (s.records.get ⟨s.position, h⟩)),
     { s with position := s.position + 1 })
  else
    (none, s)

/-- `fuel` successive `poll_next` calls at wall-clock time `now`, collecting
the yielded items (the driver loop of the repository's
`test_mock_stream`). -/
def QueryStream.run (s : QueryStream) (now : Nat) :
    Nat → List (Option (Except CozoError CodeRecord)) × QueryStream
  | 0 => ([], s)
  | fuel + 1 =>
      let r := s.poll_next now
      let rest := QueryStream.run r.2 now fuel
      (r.1 :: rest.1, rest.2)

/-! ## Helper lemmas -/

theorem pushAll_length (ids l : List Nat) :
    (pushAll l ids).length = ids.length + l.length := by
  induction ids generalizing l with
  | nil => simp [pushAll]
  | cons i is ih =>
      show (pushAll (i :: l) is).length = _
      rw [ih]
      simp
      omega

theorem freshIds_length (start n : Nat) : (freshIds start n).length = n := by
  simp [freshIds]

theorem newPool_fields (max : Nat) :
    (newPool max).max_connections = max ∧
    (newPool max).available_connections = pushAll [] (freshIds 0 max) ∧
    (newPool max).all_connections = pushAll [] (freshIds 0 max) ∧
    (newPool max).active_connections = 0 ∧
    (newPool max).idle_connections = (max : Int) ∧
    (newPool max).health_status = true := by
  refine ⟨rfl, rfl, rfl, rfl, rfl, rfl⟩

/-! ## Claim theorems -/

/-- C10: `simulate_database_failure` writes `false` to the pool-level
health flag and leaves the available vector, the owned vector, all
`pool_info` counters and the fresh-id source unchanged. -/
theorem simulate_failure_frame (s : PoolState) :
    (simulate_database_failure s).health_status = false ∧
    (simulate_database_failure s).available_connections = s.available_connections ∧
    (simulate_database_failure s).all_connections = s.all_connections ∧
    (simulate_database_failure s).active_connections = s.active_connections ∧
    (simulate_database_failure s).idle_connections = s.idle_connections ∧
    (simulate_database_failure s).total_acquired = s.total_acquired ∧
    (simulate_database_failure s).total_released = s.total_released ∧
    (simulate_database_failure s).max_connections = s.max_connections ∧
    (simulate_database_failure s).next_id = s.next_id := by
  refine ⟨rfl, rfl, rfl, rfl, rfl, rfl, rfl, rfl, rfl⟩

/-- C9 counterexample: a health check that exceeds `connection_timeout`
(elapsed 10 > timeout 5) on a connection carrying error count 3 returns the
`ConnectionFailed` timeout error, yet the recorded health state shows the
*success* effects — marked healthy with error count reset to 0 — not the
failure effects (error count 4, unhealthy) the claim requires. -/
theorem health_check_timeout_counterexample :
    health_check ⟨false, 3, some "boom"⟩ 10 5 =
      (Except.error (CozoError.ConnectionFailed "Health check timeout"),
       ⟨true, 0, none⟩) := by
  rfl

/-- C9 (amended): the source's simulated probe always succeeds, so every
health check resets the error count to zero, marks the connection healthy
and clears the last error; a check that exceeds `connection_timeout`
additionally returns a `ConnectionFailed` error (so callers such as
`is_healthy().unwrap_or(false)` see a failed check), but it does *not*
apply the failure effects: the recorded state keeps the success effects
because the source mutates the status before testing the timeout. -/
theorem health_check_spec (h : HealthStatus) (elapsed timeout : Nat) :
    (health_check h elapsed timeout).2 =
      ⟨true, 0, none⟩ ∧
    (health_check h elapsed timeout).1 =
      (if elapsed > timeout then
        Except.error (CozoError.connection_failed "Health check timeout")
      else Except.ok ()) := by
  unfold health_check
  constructor
  · split <;> rfl
  · split <;> rfl

/-- C8: one cycle of the health monitor sets the pool-level healthy flag
to `true` exactly when `available_count / total_count ≥ 0.5` (with the
quotient `0` when `total_count = 0`, in both the source and the `ℚ`
convention), and mutates nothing but that flag. -/
theorem health_monitor_cycle_spec (s : PoolState) :
    ((health_monitor_cycle s).health_status = true ↔
      (1 / 2 : ℚ) ≤ (s.available_connections.length : ℚ) /
        (s.all_connections.length : ℚ)) ∧
    (health_monitor_cycle s).available_connections = s.available_connections ∧
    (health_monitor_cycle s).all_connections = s.all_connections ∧
    (health_monitor_cycle s).active_connections = s.active_connections ∧
    (health_monitor_cycle s).idle_connections = s.idle_connections ∧
    (health_monitor_cycle s).total_acquired = s.total_acquired ∧
    (health_monitor_cycle s).total_released = s.total_released ∧
    (health_monitor_cycle s).max_connections = s.max_connections ∧
    (health_monitor_cycle s).next_id = s.next_id := by
  refine ⟨?_, rfl, rfl, rfl, rfl, rfl, rfl, rfl, rfl⟩
  show (decide _ = true) ↔ _
  rw [decide_eq_true_iff]
  rcases Nat.eq_zero_or_pos s.all_connections.length with hz | hp
  · rw [if_neg (by omega), hz]
    push_cast
    rw [div_zero]
  · rw [if_pos hp]

/-- C2 counterexample: a cursor over one record with timeout 1ms, polled
at 2ms and again at 3ms, yields the `QueryFailed` timeout error on *both*
calls — the error is not terminal and a second error follows the first,
contradicting "yields exactly one terminal timeout error and never yields
a record or a second error afterwards". -/
theorem query_stream_second_timeout_error :
    ((QueryStream.new [⟨"r0", "c0"⟩] 1 0).poll_next 2).1 =
      some (Except.error
        (CozoError.QueryFailed "Stream timeout" "QueryStream timeout")) ∧
    ((((QueryStream.new [⟨"r0", "c0"⟩] 1 0).poll_next 2).2).poll_next 3).1 =
      some (Except.error
        (CozoError.QueryFailed "Stream timeout" "QueryStream timeout")) := by
  constructor <;> rfl

/-- C2 (amended): once the cursor's timeout has elapsed
(`now - created_at ≥ timeout`), *every* `poll_next` call — the first one
included — yields the `QueryFailed` timeout error, leaves the cursor
unchanged, and never yields a record; the error however repeats on every
subsequent poll instead of the stream terminating after one error. -/
theorem query_stream_timeout_spec (s : QueryStream) (now : Nat)
    (h : s.timeout ≤ now - s.created_at) :
    s.poll_next now =
      (some (Except.error
        (CozoError.QueryFailed "Stream timeout" "QueryStream timeout")), s) := by
  have hv : s.is_valid now = false := by
    simp [QueryStream.is_valid]
    omega
  unfold QueryStream.poll_next
  rw [if_pos]
  · rfl
  · simp [hv]

/-- C2 witness: a cursor with timeout 1ms queried at 2ms satisfies the
hypothesis of `query_stream_timeout_spec` and yields the timeout error on
its first call. -/
theorem query_stream_timeout_spec_witness :
    (QueryStream.new [⟨"w0", "w1"⟩, ⟨"w2", "w3"⟩] 1 0).timeout ≤
        2 - (QueryStream.new [⟨"w0", "w1"⟩, ⟨"w2", "w3"⟩] 1 0).created_at ∧
    (QueryStream.new [⟨"w0", "w1"⟩, ⟨"w2", "w3"⟩] 1 0).poll_next 2 =
      (some (Except.error
        (CozoError.QueryFailed "Stream timeout" "QueryStream timeout")),
       QueryStream.new [⟨"w0", "w1"⟩, ⟨"w2", "w3"⟩] 1 0) :=
  ⟨by decide,
   query_stream_timeout_spec (QueryStream.new [⟨"w0", "w1"⟩, ⟨"w2", "w3"⟩] 1 0) 2
     (by decide)⟩

/-- C7 (code divergence, matching the failing repository test
`test_connection_pool_error_handling_and_recovery`): on a fresh pool of 2
connections, `simulate_database_failure()` followed by
`acquire_connection()` *succeeds* (the flag the failure hook sets is never
read by `acquire_connection`, and the per-connection health checks still
pass), where the claim — and the repository's own integration test —
require the acquire to fail; moreover, running
`simulate_database_recovery` while that connection is held leaves
`active_connections` at 1, so the pool cannot return to
`active_connections() == 0` after a subsequent acquire/release pair. -/
theorem simulate_failure_acquire_succeeds :
    (acquire_connection (simulate_database_failure (newPool 2)) true []).outcome =
      AcquireOutcome.ok 1 ∧
    (simulate_database_recovery
      ((acquire_connection (simulate_database_failure (newPool 2)) true []).state)).active_connections = 1 := by
  constructor <;> rfl

/-- C4 counterexample: on a pool of 1 whose single connection is held
(`available` empty), an `acquire_connection` whose post-wait retry
observes connection 0 — pushed back by a concurrent
`release_connection` during the 10ms sleep — returns that connection with
*no* health check performed during the call, contradicting "acquire never
returns a Connection without a prior health check in the same call". -/
theorem acquire_retry_unchecked :
    (acquire_connection ((acquire_connection (newPool 1) true []).state)
        true [0]).outcome = AcquireOutcome.ok 0 ∧
    (acquire_connection ((acquire_connection (newPool 1) true []).state)
        true [0]).checked = false := by
  constructor <;> rfl

/-- C4 (amended): a connection returned by the first-attempt path of
`acquire_connection` has always had a health check during the call; the
post-wait retry path, however, returns whatever connection it observes
without any health check, so the claimed property holds exactly for the
executions in which the retry read observes no connection (in particular
for every strictly sequential execution, where the retry re-reads the
still-empty vector). -/
theorem acquire_checked_of_sequential (s : PoolState) (check_ok : Bool)
    (c : Nat)
    (h : (acquire_connection s check_ok []).outcome = AcquireOutcome.ok c) :
    (acquire_connection s check_ok []).checked = true := by
  rcases hs : s.available_connections with _ | ⟨c', rest⟩
  · simp [acquire_connection, hs] at h
  · cases hc : check_ok
    · simp [acquire_connection, hs, hc] at h
    · simp [acquire_connection, hs, hc]

/-- C4 witness: on a fresh pool of 1, the first acquire returns connection
0 and `acquire_checked_of_sequential` applies: a health check was
performed during the call. -/
theorem acquire_checked_of_sequential_witness :
    (acquire_connection (newPool 1) true []).outcome = AcquireOutcome.ok 0 ∧
    (acquire_connection (newPool 1) true []).checked = true :=
  ⟨by rfl, acquire_checked_of_sequential (newPool 1) true 0 (by rfl)⟩

/-- C3: whenever the available vector is empty and the post-wait retry
still observes it empty, `acquire_connection` terminates with the error
`ResourceLimitExhausted { resource := "connections", used := the current
active-connections counter, limit := max_connections }` and changes no
state. -/
theorem acquire_exhausted_spec (s : PoolState) (check_ok : Bool)
    (retry : List Nat) (h1 : s.available_connections = [])
    (h2 : retry = []) :
    acquire_connection s check_ok retry =
      { outcome := AcquireOutcome.err
          (CozoError.ResourceLimitExhausted "connections"
            s.active_connections (s.max_connections : Int)),
        state := s,
        checked := false } := by
  subst h2
  rw [acquire_connection, h1]
  rfl

/-- C3 witness (the boundary scenario of the specification): on a pool
with `max_connections = 5` and all 5 connections held, a 6th acquire
returns `ResourceLimitExhausted{resource:"connections", used:5, limit:5}`
rather than hanging. -/
theorem acquire_exhausted_spec_witness :
    (acquireN (newPool 5) 5).available_connections = [] ∧
    acquire_connection (acquireN (newPool 5) 5) true [] =
      { outcome := AcquireOutcome.err
          (CozoError.ResourceLimitExhausted "connections" 5 5),
        state := acquireN (newPool 5) 5,
        checked := false } := by
  refine ⟨by rfl, ?_⟩
  rw [acquire_exhausted_spec (acquireN (newPool 5) 5) true [] (by rfl) rfl]
  rfl

/-- Evaluation of `acquire_connection` when the available vector is empty
and the retry observes it empty: the exhaustion error, no state change. -/
theorem acquire_empty_eval (s : PoolState) (check_ok : Bool)
    (h1 : s.available_connections = []) :
    acquire_connection s check_ok [] =
      { outcome := AcquireOutcome.err
          (CozoError.ResourceLimitExhausted "connections"
            s.active_connections (s.max_connections : Int)),
        state := s,
        checked := false } := by
  rw [acquire_connection, h1]
  rfl

/-- Evaluation of `acquire_connection` on a non-empty available vector
with a passing health check: pop, counter updates, health-checked
return. -/
theorem acquire_cons_eval (s : PoolState) (c : Nat) (rest : List Nat)
    (h : s.available_connections = c :: rest) :
    acquire_connection s true [] =
      { outcome := AcquireOutcome.ok c,
        state := { s with
          available_connections := rest,
          active_connections := s.active_connections + 1,
          idle_connections := s.idle_connections - 1,
          total_acquired := s.total_acquired + 1 },
        checked := true } := by
  rw [acquire_connection, h]
  rfl

/-- Strengthened invariant of disciplined sequential executions: the
`active` counter tracks the held connections, the `idle` counter tracks
the available vector, and the pool always owns exactly
`max_connections` connections, split between available and held. -/
theorem reach_strong_invariant (g : GPool) (h : Reach g) :
    g.pool.active_connections = (g.held.length : Int) ∧
    g.pool.idle_connections = (g.pool.available_connections.length : Int) ∧
    g.pool.all_connections.length = g.pool.max_connections ∧
    g.pool.available_connections.length + g.held.length =
      g.pool.max_connections := by
  induction h with
  | init max =>
      refine ⟨rfl, ?_, ?_, ?_⟩ <;>
        simp [newPool, initialize_pool, pushAll_length, freshIds_length]
  | acquireOk hr hok ih =>
      rename_i g c
      obtain ⟨ih1, ih2, ih3, ih4⟩ := ih
      rcases hs : g.pool.available_connections with _ | ⟨c', rest⟩
      · rw [acquire_empty_eval g.pool true hs] at hok
        simp at hok
      · rw [acquire_cons_eval g.pool c' rest hs] at hok
        rw [acquire_cons_eval g.pool c' rest hs]
        rw [hs] at ih2 ih4
        simp only [List.length_cons] at ih2 ih4
        refine ⟨?_, ?_, ih3, ?_⟩



        · simp only [List.length_cons]
          rw [ih1]
          push_cast
          ring
        · rw [ih2]
          push_cast
          ring
        · simp only [List.length_cons]
          omega
  | acquireErr hr herr ih =>
      rename_i g e
      obtain ⟨ih1, ih2, ih3, ih4⟩ := ih
      rcases hs : g.pool.available_connections with _ | ⟨c', rest⟩
      · rw [acquire_empty_eval g.pool true hs]
        exact ⟨ih1, ih2, ih3, ih4⟩
      · rw [acquire_cons_eval g.pool c' rest hs] at herr
        simp at herr
  | releaseOk hr hmem ih =>
      rename_i g c
      obtain ⟨ih1, ih2, ih3, ih4⟩ := ih
      have hlen : (g.held.erase c).length = g.held.length - 1 :=
        List.length_erase_of_mem hmem
      have hpos : 0 < g.held.length := List.length_pos_of_mem hmem
      rw [release_connection, if_pos rfl]
      refine ⟨?_, ?_, ih3, ?_⟩
      · show g.pool.active_connections - 1 = _
        rw [ih1, hlen]
        omega
      · show g.pool.idle_connections + 1 =
          ((c :: g.pool.available_connections).length : Int)
        rw [ih2, List.length_cons]
        push_cast
        ring
      · show (c :: g.pool.available_connections).length +
            (g.held.erase c).length = g.pool.max_connections
        rw [List.length_cons, hlen]
        omega
  | fail hr ih =>
      exact ih
  | recover hr hheld ih =>
      rename_i g
      obtain ⟨ih1, ih2, ih3, ih4⟩ := ih
      rw [hheld] at ih1 ⊢
      simp only [List.length_nil, Nat.cast_zero] at ih1
      refine ⟨?_, ?_, ?_, ?_⟩ <;>
        simp [simulate_database_recovery, initialize_pool, pushAll_length,
          freshIds_length, ih1]

/-- C1 counterexample: create a pool with `max_connections = 1`, acquire
its connection (health check passing, as the source's checks always do),
then call `simulate_database_recovery`: the recovery refills the pool and
assigns `idle = max` but never resets `active`, leaving
`active + idle = 2` while the pool owns 1 connection — the bookkeeping
equality `active + idle == total owned connections` fails at a state
reachable by the claim's own operation sequence. -/
theorem pool_invariant_counterexample :
    ReachFull (simulate_database_recovery
      ((acquire_connection (newPool 1) true []).state)) ∧
    ¬ ((simulate_database_recovery
          ((acquire_connection (newPool 1) true []).state)).active_connections +
        (simulate_database_recovery
          ((acquire_connection (newPool 1) true []).state)).idle_connections =
        ((simulate_database_recovery
          ((acquire_connection (newPool 1) true []).state)).all_connections.length : Int)) := by
  constructor
  · exact ReachFull.recover
      (ReachFull.acquire true (ReachFull.init 1) (by decide))
  · decide

/-- C1 (amended): for every pool state reachable by a disciplined
sequential execution — pool creation, acquires and releases whose health
checks succeed, releases only of held connections,
`simulate_database_failure` at any time, and `simulate_database_recovery`
only while no connection is held — the bookkeeping satisfies
`active_connections + idle_connections == total owned connections`, the
owned total is at most `max_connections`, and both counters are
non-negative. -/
theorem pool_bookkeeping_invariant (g : GPool) (h : Reach g) :
    g.pool.active_connections + g.pool.idle_connections =
      (g.pool.all_connections.length : Int) ∧
    g.pool.all_connections.length ≤ g.pool.max_connections ∧
    0 ≤ g.pool.active_connections ∧
    0 ≤ g.pool.idle_connections := by
  obtain ⟨h1, h2, h3, h4⟩ := reach_strong_invariant g h
  refine ⟨?_, ?_, ?_, ?_⟩
  · rw [h1, h2, h3, ← h4]
    push_cast
    omega
  · omega
  · rw [h1]
    positivity
  · rw [h2]
    positivity

/-- C1 witness: the invariant instantiated at the state reached by one
successful acquire on a fresh pool of 3 connections. -/
theorem pool_bookkeeping_invariant_witness :
    ((acquire_connection (newPool 3) true []).state).active_connections +
        ((acquire_connection (newPool 3) true []).state).idle_connections =
      (((acquire_connection (newPool 3) true []).state).all_connections.length : Int) ∧
    ((acquire_connection (newPool 3) true []).state).all_connections.length ≤
      ((acquire_connection (newPool 3) true []).state).max_connections ∧
    0 ≤ ((acquire_connection (newPool 3) true []).state).active_connections ∧
    0 ≤ ((acquire_connection (newPool 3) true []).state).idle_connections :=
  pool_bookkeeping_invariant
    ⟨(acquire_connection (newPool 3) true []).state, [2]⟩
    (Reach.acquireOk (Reach.init 3) (by rfl))

theorem acquireN_succ (s : PoolState) (n : Nat) :
    acquireN s (n + 1) = acquire_step (acquireN s n) := by
  induction n generalizing s with
  | zero => rfl
  | succ n ih =>
      show acquireN (acquire_step s) (n + 1) = _
      rw [ih (acquire_step s)]
      rfl

/-- Explicit state after `k ≤ max` successful acquires on a fresh pool:
the first `k` pool connections popped, `active = k`, `idle = max - k`. -/
theorem acquireN_newPool (max k : Nat) (hk : k ≤ max) :
    (acquireN (newPool max) k).available_connections =
      (pushAll [] (freshIds 0 max)).drop k ∧
    (acquireN (newPool max) k).active_connections = (k : Int) ∧
    (acquireN (newPool max) k).idle_connections = (max : Int) - (k : Int) ∧
    (acquireN (newPool max) k).all_connections = pushAll [] (freshIds 0 max) ∧
    (acquireN (newPool max) k).max_connections = max := by
  induction k with
  | zero =>
      refine ⟨?_, rfl, ?_, rfl, rfl⟩
      · rw [List.drop_zero]
        rfl
      · show (max : Int) = (max : Int) - 0
        ring
  | succ k ih =>
      obtain ⟨ih1, ih2, ih3, ih4, ih5⟩ := ih (by omega)
      have hlen : ((pushAll [] (freshIds 0 max)).drop k).length = max - k := by
        rw [List.length_drop, pushAll_length, freshIds_length]
        simp
      have hne : (pushAll [] (freshIds 0 max)).drop k ≠ [] := by
        intro hnil
        rw [hnil] at hlen
        simp at hlen
        omega
      obtain ⟨c, rest, hcr⟩ := List.exists_cons_of_ne_nil hne
      have hav : (acquireN (newPool max) k).available_connections = c :: rest := by
        rw [ih1, hcr]
      have hrest : rest = (pushAll [] (freshIds 0 max)).drop (k + 1) := by
        have h1 : ((pushAll [] (freshIds 0 max)).drop k).drop 1 =
            (pushAll [] (freshIds 0 max)).drop (k + 1) :=
          List.drop_drop 1 k (pushAll [] (freshIds 0 max))
        rw [hcr] at h1
        simpa using h1
      rw [acquireN_succ]
      unfold acquire_step
      rw [acquire_cons_eval (acquireN (newPool max) k) c rest hav]
      refine ⟨by simpa using hrest, ?_, ?_, by simpa using ih4,
        by simpa using ih5⟩
      · show (acquireN (newPool max) k).active_connections + 1 = _
        rw [ih2]
        push_cast
        ring
      · show (acquireN (newPool max) k).idle_connections - 1 = _
        rw [ih3]
        push_cast
        ring

theorem releaseN_counters (cs : List Nat) (s : PoolState) :
    (releaseN s cs).active_connections =
      s.active_connections - (cs.length : Int) ∧
    (releaseN s cs).idle_connections =
      s.idle_connections + (cs.length : Int) := by
  induction cs generalizing s with
  | nil =>
      constructor
      · show s.active_connections = s.active_connections - ((0 : Nat) : Int)
        push_cast
        ring
      · show s.idle_connections = s.idle_connections + ((0 : Nat) : Int)
        push_cast
        ring
  | cons c cs ih =>
      obtain ⟨ih1, ih2⟩ := ih (release_connection s true c)
      have h1 : (release_connection s true c).active_connections =
          s.active_connections - 1 := rfl
      have h2 : (release_connection s true c).idle_connections =
          s.idle_connections + 1 := rfl
      constructor
      · show (releaseN (release_connection s true c) cs).active_connections = _
        rw [ih1, h1, List.length_cons]
        push_cast
        ring
      · show (releaseN (release_connection s true c) cs).idle_connections = _
        rw [ih2, h2, List.length_cons]
        push_cast
        ring

/-- C6: starting from a fresh pool, every one of `n ≤ max` successive
acquires succeeds (all health checks passing), and after releasing the `n`
held connections (in any order, health checks passing) the counters read
`active_connections = 0` and `idle_connections = max_connections`. -/
theorem acquire_release_roundtrip (max n : Nat) (hn : n ≤ max)
    (cs : List Nat) (hcs : cs.length = n) :
    (∀ k, k < n → ∃ c,
      (acquire_connection (acquireN (newPool max) k) true []).outcome =
        AcquireOutcome.ok c) ∧
    (releaseN (acquireN (newPool max) n) cs).active_connections = 0 ∧
    (releaseN (acquireN (newPool max) n) cs).idle_connections = (max : Int) := by
  refine ⟨?_, ?_, ?_⟩
  · intro k hk
    obtain ⟨ih1, _, _, _, _⟩ := acquireN_newPool max k (by omega)
    have hlen : ((pushAll [] (freshIds 0 max)).drop k).length = max - k := by
      rw [List.length_drop, pushAll_length, freshIds_length]
      simp
    have hne : (pushAll [] (freshIds 0 max)).drop k ≠ [] := by
      intro hnil
      rw [hnil] at hlen
      simp at hlen
      omega
    obtain ⟨c, rest, hcr⟩ := List.exists_cons_of_ne_nil hne
    refine ⟨c, ?_⟩
    rw [acquire_cons_eval (acquireN (newPool max) k) c rest (by rw [ih1, hcr])]
  · obtain ⟨_, h2, _, _, _⟩ := acquireN_newPool max n hn
    obtain ⟨hr1, _⟩ := releaseN_counters cs (acquireN (newPool max) n)
    rw [hr1, h2, hcs]
    ring
  · obtain ⟨_, _, h3, _, _⟩ := acquireN_newPool max n hn
    obtain ⟨_, hr2⟩ := releaseN_counters cs (acquireN (newPool max) n)
    rw [hr2, h3, hcs]
    ring

/-- C6 witness: fresh pool of 3, two acquires then two releases; both
acquires succeed and the counters return to `active = 0`,
`idle = max = 3`. -/
theorem acquire_release_roundtrip_witness :
    (∀ k, k < 2 → ∃ c,
      (acquire_connection (acquireN (newPool 3) k) true []).outcome =
        AcquireOutcome.ok c) ∧
    (releaseN (acquireN (newPool 3) 2) [7, 9]).active_connections = 0 ∧
    (releaseN (acquireN (newPool 3) 2) [7, 9]).idle_connections = (3 : Int) :=
  acquire_release_roundtrip 3 2 (by omega) [7, 9] rfl

theorem poll_next_valid_mid (s : QueryStream) (now : Nat)
    (hv : s.is_valid now = true) (h : s.position < s.records.length) :
    s.poll_next now =
      (some (Except.ok (s.records.get ⟨s.position, h⟩)),
       { s with position := s.position + 1 }) := by
  unfold QueryStream.poll_next
  rw [if_neg (by simp [hv]), dif_pos h]

theorem poll_next_valid_end (s : QueryStream) (now : Nat)
    (hv : s.is_valid now = true) (h : s.records.length ≤ s.position) :
    s.poll_next now = (none, s) := by
  unfold QueryStream.poll_next
  rw [if_neg (by simp [hv]), dif_neg (by omega)]

theorem run_succ (s : QueryStream) (now fuel : Nat) :
    s.run now (fuel + 1) =
      ((s.poll_next now).1 :: ((s.poll_next now).2.run now fuel).1,
       ((s.poll_next now).2.run now fuel).2) := rfl

/-- Driving a still-valid cursor with exactly enough `poll_next` calls to
reach the end yields the remaining records in order followed by
end-of-stream, and leaves the position at the end of the record list. -/
theorem run_drains (s : QueryStream) (now : Nat) (hv : s.is_valid now = true) :
    ∀ k, s.position + k = s.records.length →
      (s.run now (k + 1)).1 =
        (s.records.drop s.position).map (fun r => some (Except.ok r)) ++ [none] ∧
      (s.run now (k + 1)).2 = { s with position := s.records.length } := by
  intro k
  induction k generalizing s with
  | zero =>
      intro hpos
      have hend : s.records.length ≤ s.position := by omega
      have hpe : s.position = s.records.length := by omega
      simp only [QueryStream.run, poll_next_valid_end s now hv hend]
      constructor
      · rw [hpe, List.drop_length]
        rfl
      · rw [← hpe]
  | succ k ih =>
      intro hpos
      have hlt : s.position < s.records.length := by omega
      have hstep := poll_next_valid_mid s now hv hlt
      have hv' : ({ s with position := s.position + 1 } : QueryStream).is_valid now = true := hv
      have hrec := ih { s with position := s.position + 1 } hv' (by simp; omega)
      dsimp only at hrec
      constructor
      · rw [run_succ]
        simp only [hstep]
        rw [hrec.1, List.drop_eq_getElem_cons hlt]
        simp only [List.map_cons, List.cons_append, List.get_eq_getElem]
      · rw [run_succ]
        simp only [hstep]
        rw [hrec.2]

/-- C5: on a cursor whose timeout has not elapsed, `poll_next` yields the
record at the current position and advances the position when one remains,
and signals end-of-stream otherwise; `remaining()` always equals
`len(records) - position` floored at zero; and a fresh cursor over any
record list, consumed immediately (timeout positive, time 0), yields
exactly its records in order, then end-of-stream, with `remaining() == 0`
afterwards. -/
theorem cursor_stepping_spec :
    (∀ (s : QueryStream) (now : Nat), s.is_valid now = true →
      ∀ h : s.position < s.records.length,
      s.poll_next now =
        (some (Except.ok (s.records.get ⟨s.position, h⟩)),
         { s with position := s.position + 1 })) ∧
    (∀ (s : QueryStream) (now : Nat), s.is_valid now = true →
      s.records.length ≤ s.position → s.poll_next now = (none, s)) ∧
    (∀ s : QueryStream, (s.remaining : Int) =
      max ((s.records.length : Int) - (s.position : Int)) 0) ∧
    (∀ (records : List CodeRecord) (timeout : Nat), 0 < timeout →
      ((QueryStream.new records timeout 0).run 0 (records.length + 1)).1 =
        records.map (fun r => some (Except.ok r)) ++ [none] ∧
      ((QueryStream.new records timeout 0).run 0 (records.length + 1)).2.remaining = 0) := by
  refine ⟨poll_next_valid_mid, poll_next_valid_end, ?_, ?_⟩
  · intro s
    unfold QueryStream.remaining
    rcases le_total s.position s.records.length with h | h
    · rw [Nat.cast_sub h, max_eq_left (sub_nonneg.mpr (by exact_mod_cast h))]
    · have h0 : s.records.length - s.position = 0 := by omega
      rw [h0, max_eq_right (sub_nonpos.mpr (by exact_mod_cast h))]
      rfl
  · intro records timeout ht
    have hv : (QueryStream.new records timeout 0).is_valid 0 = true := by
      simp [QueryStream.new, QueryStream.is_valid]
      omega
    have h := run_drains (QueryStream.new records timeout 0) 0 hv
      records.length (by simp [QueryStream.new])
    constructor
    · rw [h.1]
      simp [QueryStream.new]
    · rw [h.2]
      simp [QueryStream.remaining, QueryStream.new]

/-- C5 witness: the specification's cursor-exhaustion scenario — a cursor
over 10 records with a 30-second timeout, consumed immediately, yields
exactly the 10 records then end-of-stream, with `remaining() == 0`
afterwards. -/
theorem cursor_stepping_spec_witness :
    (0 : Nat) < 30000 ∧
    ((QueryStream.new
        [⟨"0", "a"⟩, ⟨"1", "a"⟩, ⟨"2", "a"⟩, ⟨"3", "a"⟩, ⟨"4", "a"⟩,
         ⟨"5", "a"⟩, ⟨"6", "a"⟩, ⟨"7", "a"⟩, ⟨"8", "a"⟩, ⟨"9", "a"⟩]
        30000 0).run 0 11).1 =
      ([⟨"0", "a"⟩, ⟨"1", "a"⟩, ⟨"2", "a"⟩, ⟨"3", "a"⟩, ⟨"4", "a"⟩,
        ⟨"5", "a"⟩, ⟨"6", "a"⟩, ⟨"7", "a"⟩, ⟨"8", "a"⟩, ⟨"9", "a"⟩] :
          List CodeRecord).map (fun r => some (Except.ok r)) ++ [none] ∧
    ((QueryStream.new
        [⟨"0", "a"⟩, ⟨"1", "a"⟩, ⟨"2", "a"⟩, ⟨"3", "a"⟩, ⟨"4", "a"⟩,
         ⟨"5", "a"⟩, ⟨"6", "a"⟩, ⟨"7", "a"⟩, ⟨"8", "a"⟩, ⟨"9", "a"⟩]
        30000 0).run 0 11).2.remaining = 0 :=
  ⟨by decide,
   (cursor_stepping_spec.2.2.2
      [⟨"0", "a"⟩, ⟨"1", "a"⟩, ⟨"2", "a"⟩, ⟨"3", "a"⟩, ⟨"4", "a"⟩,
       ⟨"5", "a"⟩, ⟨"6", "a"⟩, ⟨"7", "a"⟩, ⟨"8", "a"⟩, ⟨"9", "a"⟩]
      30000 (by decide)).1,
   (cursor_stepping_spec.2.2.2
      [⟨"0", "a"⟩, ⟨"1", "a"⟩, ⟨"2", "a"⟩, ⟨"3", "a"⟩, ⟨"4", "a"⟩,
       ⟨"5", "a"⟩, ⟨"6", "a"⟩, ⟨"7", "a"⟩, ⟨"8", "a"⟩, ⟨"9", "a"⟩]
      30000 (by decide)).2⟩

end Cozo
